import Mathlib

/-!
Shallow embedding of `src/chamber_app.py` (function `calculate_parts_fitting`
and its inner helper `calculate_total_parts`), together with theorems settling
the claims about the packing calculator.

Python dict values for the six numeric keys are modelled by `PyVal`
(a number, a string that `float()` parses, or a string on which `float()`
raises `ValueError`); absence of a key is `Option.none`.  Python floats are
modelled by `ℚ`.  A call returns the outcome (result dict, error dict, or an
unhandled exception) together with the final state of the caller's dict,
since the function mutates `input_data` when the solvent is `"PURE"`.
-/

namespace ChamberApp

/-- A value stored under one of the six numeric keys of `input_data`:
an int/float, a string that `float()` would parse (with the value it
parses to), or a string on which `float()` raises `ValueError`. -/
inductive PyVal where
  | num (q : ℚ)
  | numStr (q : ℚ)
  | badStr
deriving DecidableEq, Repr

/-- The caller's `input_data` dictionary: each key is present (`some`) or
absent (`none`); `machine_type` and `solvent` hold strings. -/
structure InputData where
  machine_type : Option String
  solvent : Option String
  part_width : Option PyVal
  part_depth : Option PyVal
  part_height : Option PyVal
  spacing_width : Option PyVal
  spacing_depth : Option PyVal
  spacing_height : Option PyVal
deriving DecidableEq, Repr

/-- The error dictionaries the function can return: the invalid
machine-type message (line 35) and the "All input values must be
numeric." message (line 65).  The "non-null" message of line 68 is
unreachable: `float()` never returns `None`. -/
inductive CalcError where
  | invalidMachineType
  | nonNumericInput
deriving DecidableEq, Repr

/-- Unhandled Python exceptions the function can raise. -/
inductive PyExn where
  | zeroDivisionError
  | typeError
  | keyError
deriving DecidableEq, Repr

/-- The result dictionary returned on success (lines 92–99). -/
structure PackingResult where
  total_parts_original : ℤ
  total_parts_extended : ℤ
  parts_along_height_original : ℤ
  parts_along_height_extended : ℤ
  parts_along_width_original : ℤ
  parts_along_depth_original : ℤ
deriving DecidableEq, Repr

/-- Outcome of a call: a returned result dict, a returned error dict, or an
unhandled exception. -/
inductive CalcOutcome where
  | error (e : CalcError)
  | ok (r : PackingResult)
  | exn (e : PyExn)
deriving DecidableEq, Repr

/-- Python `str.strip()`: remove leading and trailing whitespace. -/
def pyStrip (s : String) : String :=
  String.mk (((s.data.dropWhile Char.isWhitespace).reverse.dropWhile
    Char.isWhitespace).reverse)

/-- `float(v)`: a number or numeric string converts; a non-numeric string
raises `ValueError` (`none`). -/
def pyFloat (v : PyVal) : Option ℚ :=
  match v with
  | .num q => some q
  | .numStr q => some q
  | .badStr => none

/-- `input_data[key] += 10` (lines 48–49): `KeyError` if the key is absent,
`TypeError` if the value is a string, otherwise the number is increased. -/
def pyAddTen (v : Option PyVal) : Except PyExn PyVal :=
  match v with
  | none => .error .keyError
  | some (.num q) => .ok (.num (q + 10))
  | some (.numStr _) => .error .typeError
  | some .badStr => .error .typeError

/-- Lines 26–35: chamber dimensions (width, depth, height) by machine type,
`none` for an unrecognized machine type. -/
def chamberDims (machine_type : String) : Option (ℚ × ℚ × ℚ) :=
  if machine_type = "SF50" then some (400, 300, 400)
  else if machine_type = "SF100" then some (400, 600, 400)
  else none

/-- Lines 37–49: clearances start at 50 each; if the stripped solvent is
`"PURE"` each clearance gains 50 and the dict entries `spacing_width` and
`spacing_depth` are incremented by 10 in place (which can raise `KeyError`
or `TypeError`).  Returns the three clearances and the updated dict, or the
exception together with the dict state at the moment it was raised. -/
def pureAdjust (solvent : String) (d : InputData) :
    Except (PyExn × InputData) (ℚ × ℚ × ℚ × InputData) :=
  if solvent = "PURE" then
    match pyAddTen d.spacing_width with
    | .error e => .error (e, d)
    | .ok vw =>
      let d1 : InputData := { d with spacing_width := some vw }
      match pyAddTen d1.spacing_depth with
      | .error e => .error (e, d1)
      | .ok vd => .ok (50 + 50, 50 + 50, 50 + 50, { d1 with spacing_depth := some vd })
  else .ok (50, 50, 50, d)

/-- Lines 57–65: `float(input_data.get(key, 0))` for the six numeric keys;
`none` models the caught `ValueError` ("All input values must be numeric."). -/
def parseSix (d : InputData) : Option (ℚ × ℚ × ℚ × ℚ × ℚ × ℚ) :=
  match pyFloat (d.part_width.getD (.num 0)), pyFloat (d.part_depth.getD (.num 0)),
        pyFloat (d.part_height.getD (.num 0)), pyFloat (d.spacing_width.getD (.num 0)),
        pyFloat (d.spacing_depth.getD (.num 0)), pyFloat (d.spacing_height.getD (.num 0)) with
  | some pw, some pd, some ph, some sw, some sd, some sh => some (pw, pd, ph, sw, sd, sh)
  | _, _, _, _, _, _ => none

/-- Lines 70–86, the inner helper: effective pitches, per-axis counts via
float floor division (Python `int(a // b)` is `⌊a / b⌋` for a positive or
negative divisor, and raises `ZeroDivisionError` on a zero divisor; the
width division runs first, then depth, then height), the height count
capped at 5, and the total as the product.  Returns
`(total_parts, parts_along_width, parts_along_depth, parts_along_height)`. -/
def calculate_total_parts (effective_chamber_width effective_chamber_height
    part_width part_depth part_height spacing_width spacing_depth spacing_height
    chamber_depth : ℚ) : Except PyExn (ℤ × ℤ × ℤ × ℤ) :=
  let effective_part_width := part_width + spacing_width
  let effective_part_depth := part_depth + spacing_depth
  let effective_part_height := part_height + spacing_height
  if effective_part_width = 0 then .error .zeroDivisionError
  else if effective_part_depth = 0 then .error .zeroDivisionError
  else if effective_part_height = 0 then .error .zeroDivisionError
  else
    let parts_along_width := ⌊effective_chamber_width / effective_part_width⌋
    let parts_along_depth := ⌊chamber_depth / effective_part_depth⌋
    let parts_along_height := min 5 ⌊effective_chamber_height / effective_part_height⌋
    .ok (parts_along_width * parts_along_depth * parts_along_height,
         parts_along_width, parts_along_depth, parts_along_height)

/-- Lines 25–99, `calculate_parts_fitting(input_data)`: resolve the machine
type (stripped), apply clearance and the PURE solvent adjustment (mutating
the dict), compute effective chamber dimensions, parse the six numeric
fields, run `calculate_total_parts` at the effective chamber depth and at
that depth plus 300, and assemble the result dict.  The second component is
the final state of the caller's `input_data`. -/
def calculate_parts_fitting (input_data : InputData) : CalcOutcome × InputData :=
  let machine_type := pyStrip (input_data.machine_type.getD "")
  match chamberDims machine_type with
  | none => (.error .invalidMachineType, input_data)
  | some (chamber_width, chamber_depth, chamber_height) =>
    let solvent := pyStrip (input_data.solvent.getD "")
    match pureAdjust solvent input_data with
    | .error (e, d) => (.exn e, d)
    | .ok (clearance_width, clearance_depth, clearance_height, d) =>
      let effective_chamber_width := chamber_width - clearance_width
      let effective_chamber_depth := chamber_depth - clearance_depth
      let effective_chamber_height := chamber_height - clearance_height
      match parseSix d with
      | none => (.error .nonNumericInput, d)
      | some (part_width, part_depth, part_height,
              spacing_width, spacing_depth, spacing_height) =>
        match calculate_total_parts effective_chamber_width effective_chamber_height
            part_width part_depth part_height spacing_width spacing_depth spacing_height
            effective_chamber_depth with
        | .error e => (.exn e, d)
        | .ok (total_parts_original, parts_along_width_original,
               parts_along_depth_original, parts_along_height_original) =>
          match calculate_total_parts effective_chamber_width effective_chamber_height
              part_width part_depth part_height spacing_width spacing_depth spacing_height
              (effective_chamber_depth + 300) with
          | .error e => (.exn e, d)
          | .ok (total_parts_extended, _parts_along_width_extended,
                 _parts_along_depth_extended, parts_along_height_extended) =>
            (.ok { total_parts_original := total_parts_original,
                   total_parts_extended := total_parts_extended,
                   parts_along_height_original := parts_along_height_original,
                   parts_along_height_extended := parts_along_height_extended,
                   parts_along_width_original := parts_along_width_original,
                   parts_along_depth_original := parts_along_depth_original }, d)

/-- The example input of lines 244–253 (scenario 1 of the spec). -/
def scenario1 : InputData :=
  { machine_type := some "SF50", solvent := some "",
    part_width := some (.num 50), part_depth := some (.num 50),
    part_height := some (.num 100), spacing_width := some (.num 10),
    spacing_depth := some (.num 10), spacing_height := some (.num 30) }

/-- Scenario-1 input with solvent "PURE" instead of "": used to exhibit the
in-place mutation of the caller's spacing fields. -/
def pureInput : InputData :=
  { machine_type := some "SF50", solvent := some "PURE",
    part_width := some (.num 50), part_depth := some (.num 50),
    part_height := some (.num 100), spacing_width := some (.num 10),
    spacing_depth := some (.num 10), spacing_height := some (.num 30) }

/-- The state of `pureInput` after one call: spacing_width and spacing_depth
have been increased by 10 in place. -/
def pureMutated : InputData :=
  { machine_type := some "SF50", solvent := some "PURE",
    part_width := some (.num 50), part_depth := some (.num 50),
    part_height := some (.num 100), spacing_width := some (.num 20),
    spacing_depth := some (.num 20), spacing_height := some (.num 30) }

/-- The state of `pureInput` after two calls: spacing_width and
spacing_depth have been increased by 10 twice. -/
def pureMutated2 : InputData :=
  { machine_type := some "SF50", solvent := some "PURE",
    part_width := some (.num 50), part_depth := some (.num 50),
    part_height := some (.num 100), spacing_width := some (.num 30),
    spacing_depth := some (.num 30), spacing_height := some (.num 30) }

/-- The result dict of the first call on `pureInput` (effective chamber
(300,200,300), pitches (70,70,130)). -/
def pureResult : PackingResult :=
  { total_parts_original := 16, total_parts_extended := 56,
    parts_along_height_original := 2, parts_along_height_extended := 2,
    parts_along_width_original := 4, parts_along_depth_original := 2 }

/-- The result dict of a second call on the mutated dict `pureMutated`
(pitches (80,80,130)). -/
def pureResult2 : PackingResult :=
  { total_parts_original := 12, total_parts_extended := 36,
    parts_along_height_original := 2, parts_along_height_extended := 2,
    parts_along_width_original := 3, parts_along_depth_original := 2 }

/-- Scenario-1 input with the `spacing_width` key absent from the dict. -/
def missingFieldInput : InputData :=
  { machine_type := some "SF50", solvent := some "",
    part_width := some (.num 50), part_depth := some (.num 50),
    part_height := some (.num 100), spacing_width := none,
    spacing_depth := some (.num 10), spacing_height := some (.num 30) }

/-- Scenario-1 input with part_width 0 and spacing_width 0: the width pitch
is zero. -/
def zeroPitchInput : InputData :=
  { machine_type := some "SF50", solvent := some "",
    part_width := some (.num 0), part_depth := some (.num 50),
    part_height := some (.num 100), spacing_width := some (.num 0),
    spacing_depth := some (.num 10), spacing_height := some (.num 30) }

/-- Scenario-1 input with part_height 0 and spacing_height 0: the height
pitch is zero. -/
def zeroHeightPitchInput : InputData :=
  { machine_type := some "SF50", solvent := some "",
    part_width := some (.num 50), part_depth := some (.num 50),
    part_height := some (.num 0), spacing_width := some (.num 10),
    spacing_depth := some (.num 10), spacing_height := some (.num 0) }

/-- Scenario-1 input with an unrecognized machine type. -/
def invalidMachineInput : InputData :=
  { machine_type := some "SF75", solvent := some "",
    part_width := some (.num 50), part_depth := some (.num 50),
    part_height := some (.num 100), spacing_width := some (.num 10),
    spacing_depth := some (.num 10), spacing_height := some (.num 30) }

/-- Scenario-1 input with a non-numeric string as part_depth. -/
def badStrInput : InputData :=
  { machine_type := some "SF50", solvent := some "",
    part_width := some (.num 50), part_depth := some .badStr,
    part_height := some (.num 100), spacing_width := some (.num 10),
    spacing_depth := some (.num 10), spacing_height := some (.num 30) }

/-- The result dict of the example run of lines 244–257 (scenario 1). -/
def scenario1Result : PackingResult :=
  { total_parts_original := 40, total_parts_extended := 90,
    parts_along_height_original := 2, parts_along_height_extended := 2,
    parts_along_width_original := 5, parts_along_depth_original := 4 }

/-- The three spatial axes of the chamber. -/
inductive Axis where
  | width
  | depth
  | height
deriving DecidableEq, Repr

/-- Replace the spacing entry of the given axis in the input dict. -/
def setSpacing (a : Axis) (d : InputData) (v : Option PyVal) : InputData :=
  match a with
  | .width => { d with spacing_width := v }
  | .depth => { d with spacing_depth := v }
  | .height => { d with spacing_height := v }

/-- The part-dimension entry of the given axis. -/
def partSizeField (a : Axis) (d : InputData) : Option PyVal :=
  match a with
  | .width => d.part_width
  | .depth => d.part_depth
  | .height => d.part_height

/-- The per-axis count of the original (non-extended) run reported in the
result dict. -/
def alongOriginal (a : Axis) (r : PackingResult) : ℤ :=
  match a with
  | .width => r.parts_along_width_original
  | .depth => r.parts_along_depth_original
  | .height => r.parts_along_height_original

/-- Scenario-1 input with spacing_width raised from 10 to 60. -/
def scenario1Wide : InputData :=
  { machine_type := some "SF50", solvent := some "",
    part_width := some (.num 50), part_depth := some (.num 50),
    part_height := some (.num 100), spacing_width := some (.num 60),
    spacing_depth := some (.num 10), spacing_height := some (.num 30) }

/-- The result dict for `scenario1Wide` (width pitch 110). -/
def scenario1WideResult : PackingResult :=
  { total_parts_original := 24, total_parts_extended := 54,
    parts_along_height_original := 2, parts_along_height_extended := 2,
    parts_along_width_original := 3, parts_along_depth_original := 4 }

/-- Select the component of a (width, depth, height) triple along an axis. -/
def axisPick (a : Axis) (cw cd ch : ℚ) : ℚ :=
  match a with
  | .width => cw
  | .depth => cd
  | .height => ch

/-- Result of a single packing run (steps 3–7 of the spec's contract). -/
structure SpecRunResult where
  total_parts : ℤ
  parts_along_width : ℤ
  parts_along_depth : ℤ
  parts_along_height : ℤ
deriving DecidableEq, Repr

/-- Outcome of a single packing run. -/
inductive SpecRunOutcome where
  | error (e : CalcError)
  | ok (r : SpecRunResult)
  | exn (e : PyExn)
deriving DecidableEq, Repr

/-- Modelled from the spec: step 8 of the Packing Calculator contract —
"repeat steps 3–7 with chamber depth increased by a fixed 300mm bonus",
with all other inputs unchanged.  Steps 1–2 (machine-type resolution,
clearance and solvent adjustment) are performed as in the primary
computation; the chamber depth is then increased by `bonus` before the
effective dimensions of step 3 are formed. -/
def spec_repeat_with_depth_bonus (input_data : InputData) (bonus : ℚ) :
    SpecRunOutcome × InputData :=
  let machine_type := pyStrip (input_data.machine_type.getD "")
  match chamberDims machine_type with
  | none => (.error .invalidMachineType, input_data)
  | some (chamber_width, chamber_depth, chamber_height) =>
    let chamber_depth := chamber_depth + bonus
    let solvent := pyStrip (input_data.solvent.getD "")
    match pureAdjust solvent input_data with
    | .error (e, d) => (.exn e, d)
    | .ok (clearance_width, clearance_depth, clearance_height, d) =>
      let effective_chamber_width := chamber_width - clearance_width
      let effective_chamber_depth := chamber_depth - clearance_depth
      let effective_chamber_height := chamber_height - clearance_height
      match parseSix d with
      | none => (.error .nonNumericInput, d)
      | some (part_width, part_depth, part_height,
              spacing_width, spacing_depth, spacing_height) =>
        match calculate_total_parts effective_chamber_width effective_chamber_height
            part_width part_depth part_height spacing_width spacing_depth spacing_height
            effective_chamber_depth with
        | .error e => (.exn e, d)
        | .ok (total_parts, parts_along_width, parts_along_depth, parts_along_height) =>
          (.ok { total_parts := total_parts, parts_along_width := parts_along_width,
                 parts_along_depth := parts_along_depth,
                 parts_along_height := parts_along_height }, d)

/-! ### Characterization lemmas -/

/-- `calculate_total_parts` on nonzero pitches returns the floor-division
counts. -/
theorem calculate_total_parts_eq (eW eH pw pd ph sw sd sh cD : ℚ)
    (h1 : pw + sw ≠ 0) (h2 : pd + sd ≠ 0) (h3 : ph + sh ≠ 0) :
    calculate_total_parts eW eH pw pd ph sw sd sh cD =
      .ok (⌊eW / (pw + sw)⌋ * ⌊cD / (pd + sd)⌋ * min 5 ⌊eH / (ph + sh)⌋,
           ⌊eW / (pw + sw)⌋, ⌊cD / (pd + sd)⌋, min 5 ⌊eH / (ph + sh)⌋) := by
  simp only [calculate_total_parts, if_neg h1, if_neg h2, if_neg h3]

/-- `calculate_total_parts` raises `ZeroDivisionError` whenever some pitch is
zero. -/
theorem calculate_total_parts_zero (eW eH pw pd ph sw sd sh cD : ℚ)
    (h : pw + sw = 0 ∨ pd + sd = 0 ∨ ph + sh = 0) :
    calculate_total_parts eW eH pw pd ph sw sd sh cD = .error .zeroDivisionError := by
  rcases h with h | h | h <;> simp [calculate_total_parts, h]

/-- Inversion of a successful run of `calculate_total_parts`. -/
theorem calculate_total_parts_ok (eW eH pw pd ph sw sd sh cD : ℚ)
    (t : ℤ × ℤ × ℤ × ℤ)
    (h : calculate_total_parts eW eH pw pd ph sw sd sh cD = .ok t) :
    pw + sw ≠ 0 ∧ pd + sd ≠ 0 ∧ ph + sh ≠ 0 ∧
      t = (⌊eW / (pw + sw)⌋ * ⌊cD / (pd + sd)⌋ * min 5 ⌊eH / (ph + sh)⌋,
           ⌊eW / (pw + sw)⌋, ⌊cD / (pd + sd)⌋, min 5 ⌊eH / (ph + sh)⌋) := by
  by_cases h1 : pw + sw = 0
  · rw [calculate_total_parts_zero eW eH pw pd ph sw sd sh cD (Or.inl h1)] at h
    exact absurd h (by simp)
  by_cases h2 : pd + sd = 0
  · rw [calculate_total_parts_zero eW eH pw pd ph sw sd sh cD (Or.inr (Or.inl h2))] at h
    exact absurd h (by simp)
  by_cases h3 : ph + sh = 0
  · rw [calculate_total_parts_zero eW eH pw pd ph sw sd sh cD (Or.inr (Or.inr h3))] at h
    exact absurd h (by simp)
  rw [calculate_total_parts_eq eW eH pw pd ph sw sd sh cD h1 h2 h3] at h
  injection h with h4
  exact ⟨h1, h2, h3, h4.symm⟩

/-- Full evaluation of `calculate_parts_fitting` along the success path,
given the outcome of each stage. -/
theorem calculate_parts_fitting_eq (d : InputData) (cw cd ch clw cld clh : ℚ)
    (d' : InputData) (pw pdq ph sw sdq sh : ℚ)
    (hmc : chamberDims (pyStrip (d.machine_type.getD "")) = some (cw, cd, ch))
    (hpa : pureAdjust (pyStrip (d.solvent.getD "")) d = .ok (clw, cld, clh, d'))
    (hps : parseSix d' = some (pw, pdq, ph, sw, sdq, sh))
    (h1 : pw + sw ≠ 0) (h2 : pdq + sdq ≠ 0) (h3 : ph + sh ≠ 0) :
    calculate_parts_fitting d =
      (.ok { total_parts_original :=
               ⌊(cw - clw) / (pw + sw)⌋ * ⌊(cd - cld) / (pdq + sdq)⌋ *
                 min 5 ⌊(ch - clh) / (ph + sh)⌋,
             total_parts_extended :=
               ⌊(cw - clw) / (pw + sw)⌋ * ⌊(cd - cld + 300) / (pdq + sdq)⌋ *
                 min 5 ⌊(ch - clh) / (ph + sh)⌋,
             parts_along_height_original := min 5 ⌊(ch - clh) / (ph + sh)⌋,
             parts_along_height_extended := min 5 ⌊(ch - clh) / (ph + sh)⌋,
             parts_along_width_original := ⌊(cw - clw) / (pw + sw)⌋,
             parts_along_depth_original := ⌊(cd - cld) / (pdq + sdq)⌋ }, d') := by
  simp only [calculate_parts_fitting, hmc, hpa, hps,
    calculate_total_parts_eq _ _ _ _ _ _ _ _ _ h1 h2 h3]

/-- Inversion of a successful run of `calculate_parts_fitting`: the stages it
went through and the value of every field of the result. -/
theorem calculate_parts_fitting_ok (d : InputData) (r : PackingResult)
    (h : (calculate_parts_fitting d).1 = .ok r) :
    ∃ (cw cd ch clw cld clh : ℚ) (d' : InputData) (pw pdq ph sw sdq sh : ℚ),
      chamberDims (pyStrip (d.machine_type.getD "")) = some (cw, cd, ch) ∧
      pureAdjust (pyStrip (d.solvent.getD "")) d = .ok (clw, cld, clh, d') ∧
      parseSix d' = some (pw, pdq, ph, sw, sdq, sh) ∧
      pw + sw ≠ 0 ∧ pdq + sdq ≠ 0 ∧ ph + sh ≠ 0 ∧
      (calculate_parts_fitting d).2 = d' ∧
      r = { total_parts_original :=
              ⌊(cw - clw) / (pw + sw)⌋ * ⌊(cd - cld) / (pdq + sdq)⌋ *
                min 5 ⌊(ch - clh) / (ph + sh)⌋,
            total_parts_extended :=
              ⌊(cw - clw) / (pw + sw)⌋ * ⌊(cd - cld + 300) / (pdq + sdq)⌋ *
                min 5 ⌊(ch - clh) / (ph + sh)⌋,
            parts_along_height_original := min 5 ⌊(ch - clh) / (ph + sh)⌋,
            parts_along_height_extended := min 5 ⌊(ch - clh) / (ph + sh)⌋,
            parts_along_width_original := ⌊(cw - clw) / (pw + sw)⌋,
            parts_along_depth_original := ⌊(cd - cld) / (pdq + sdq)⌋ } := by
  cases hmc : chamberDims (pyStrip (d.machine_type.getD "")) with
  | none =>
    have he : (calculate_parts_fitting d).1 = .error .invalidMachineType := by
      simp only [calculate_parts_fitting, hmc]
    rw [he] at h
    exact absurd h (by simp)
  | some c =>
    obtain ⟨cw, cd, ch⟩ := c
    cases hpa : pureAdjust (pyStrip (d.solvent.getD "")) d with
    | error ed =>
      obtain ⟨e, dX⟩ := ed
      have he : (calculate_parts_fitting d).1 = .exn e := by
        simp only [calculate_parts_fitting, hmc, hpa]
      rw [he] at h
      exact absurd h (by simp)
    | ok c =>
      obtain ⟨clw, cld, clh, d'⟩ := c
      cases hps : parseSix d' with
      | none =>
        have he : (calculate_parts_fitting d).1 = .error .nonNumericInput := by
          simp only [calculate_parts_fitting, hmc, hpa, hps]
        rw [he] at h
        exact absurd h (by simp)
      | some c =>
        obtain ⟨pw, pdq, ph, sw, sdq, sh⟩ := c
        cases hc1 : calculate_total_parts (cw - clw) (ch - clh) pw pdq ph sw sdq sh
            (cd - cld) with
        | error e =>
          have he : (calculate_parts_fitting d).1 = .exn e := by
            simp only [calculate_parts_fitting, hmc, hpa, hps, hc1]
          rw [he] at h
          exact absurd h (by simp)
        | ok t1 =>
          obtain ⟨h1, h2, h3, ht1⟩ := calculate_total_parts_ok _ _ _ _ _ _ _ _ _ _ hc1
          have heq := calculate_parts_fitting_eq d cw cd ch clw cld clh d' pw pdq ph
            sw sdq sh hmc hpa hps h1 h2 h3
          rw [heq] at h
          exact ⟨cw, cd, ch, clw, cld, clh, d', pw, pdq, ph, sw, sdq, sh,
            rfl, rfl, hps, h1, h2, h3, by rw [heq], (CalcOutcome.ok.inj h).symm⟩

/-- A recognized machine type has chamber width 400, depth 300 or 600, and
height 400. -/
theorem chamberDims_some (mt : String) (cw cd ch : ℚ)
    (h : chamberDims mt = some (cw, cd, ch)) :
    cw = 400 ∧ (cd = 300 ∨ cd = 600) ∧ ch = 400 := by
  unfold chamberDims at h
  split_ifs at h with h1 h2
  · injection h with h'
    simp only [Prod.mk.injEq] at h'
    obtain ⟨rfl, rfl, rfl⟩ := h'
    simp
  · injection h with h'
    simp only [Prod.mk.injEq] at h'
    obtain ⟨rfl, rfl, rfl⟩ := h'
    simp

/-- For a solvent other than "PURE" the adjustment step leaves the dict
unchanged and yields clearances of 50. -/
theorem pureAdjust_not_pure (s : String) (d : InputData) (h : s ≠ "PURE") :
    pureAdjust s d = .ok (50, 50, 50, d) := by
  simp [pureAdjust, h]

/-- For solvent "PURE" with numeric spacing_width and spacing_depth entries,
the adjustment yields clearances of 100 and adds 10 to both entries in the
dict. -/
theorem pureAdjust_pure (d : InputData) (q1 q2 : ℚ)
    (hw : d.spacing_width = some (.num q1)) (hd : d.spacing_depth = some (.num q2)) :
    pureAdjust "PURE" d =
      .ok (50 + 50, 50 + 50, 50 + 50,
        { d with spacing_width := some (.num (q1 + 10)),
                 spacing_depth := some (.num (q2 + 10)) }) := by
  simp [pureAdjust, pyAddTen, hw, hd]

/-- Inversion of the solvent-adjustment step: the clearances are all 50 (no
PURE bonus) or all 100 (PURE bonus). -/
theorem pureAdjust_ok (s : String) (d : InputData) (clw cld clh : ℚ)
    (d' : InputData) (h : pureAdjust s d = .ok (clw, cld, clh, d')) :
    (s ≠ "PURE" ∧ clw = 50 ∧ cld = 50 ∧ clh = 50 ∧ d' = d) ∨
    (s = "PURE" ∧ clw = 100 ∧ cld = 100 ∧ clh = 100 ∧
      ∃ q1 q2 : ℚ, d.spacing_width = some (.num q1) ∧
        d.spacing_depth = some (.num q2) ∧
        d' = { d with spacing_width := some (.num (q1 + 10)),
                      spacing_depth := some (.num (q2 + 10)) }) := by
  by_cases hs : s = "PURE"
  · subst hs
    cases hw : d.spacing_width with
    | none => simp [pureAdjust, pyAddTen, hw] at h
    | some vw =>
      cases vw with
      | num q1 =>
        cases hd : d.spacing_depth with
        | none => simp [pureAdjust, pyAddTen, hw, hd] at h
        | some vd =>
          cases vd with
          | num q2 =>
            rw [pureAdjust_pure d q1 q2 hw hd] at h
            injection h with h'
            simp only [Prod.mk.injEq] at h'
            obtain ⟨e1, e2, e3, e4⟩ := h'
            refine Or.inr ⟨rfl, ?_, ?_, ?_, q1, q2, rfl, rfl, e4.symm⟩ <;>
              [rw [← e1]; rw [← e2]; rw [← e3]] <;> norm_num
          | numStr q2 => simp [pureAdjust, pyAddTen, hw, hd] at h
          | badStr => simp [pureAdjust, pyAddTen, hw, hd] at h
      | numStr q1 => simp [pureAdjust, pyAddTen, hw] at h
      | badStr => simp [pureAdjust, pyAddTen, hw] at h
  · rw [pureAdjust_not_pure s d hs] at h
    injection h with h'
    simp only [Prod.mk.injEq] at h'
    obtain ⟨e1, e2, e3, e4⟩ := h'
    exact Or.inl ⟨hs, e1.symm, e2.symm, e3.symm, e4.symm⟩

/-- Inversion of the numeric-extraction step: each of the six fields parses
to the corresponding component. -/
theorem parseSix_some (dx : InputData) (pw pdq ph sw sdq sh : ℚ)
    (h : parseSix dx = some (pw, pdq, ph, sw, sdq, sh)) :
    pyFloat (dx.part_width.getD (.num 0)) = some pw ∧
    pyFloat (dx.part_depth.getD (.num 0)) = some pdq ∧
    pyFloat (dx.part_height.getD (.num 0)) = some ph ∧
    pyFloat (dx.spacing_width.getD (.num 0)) = some sw ∧
    pyFloat (dx.spacing_depth.getD (.num 0)) = some sdq ∧
    pyFloat (dx.spacing_height.getD (.num 0)) = some sh := by
  cases e1 : pyFloat (dx.part_width.getD (.num 0)) with
  | none => simp [parseSix, e1] at h
  | some v1 =>
  cases e2 : pyFloat (dx.part_depth.getD (.num 0)) with
  | none => simp [parseSix, e1, e2] at h
  | some v2 =>
  cases e3 : pyFloat (dx.part_height.getD (.num 0)) with
  | none => simp [parseSix, e1, e2, e3] at h
  | some v3 =>
  cases e4 : pyFloat (dx.spacing_width.getD (.num 0)) with
  | none => simp [parseSix, e1, e2, e3, e4] at h
  | some v4 =>
  cases e5 : pyFloat (dx.spacing_depth.getD (.num 0)) with
  | none => simp [parseSix, e1, e2, e3, e4, e5] at h
  | some v5 =>
  cases e6 : pyFloat (dx.spacing_height.getD (.num 0)) with
  | none => simp [parseSix, e1, e2, e3, e4, e5, e6] at h
  | some v6 =>
    simp only [parseSix, e1, e2, e3, e4, e5, e6, Option.some.injEq,
      Prod.mk.injEq] at h
    obtain ⟨rfl, rfl, rfl, rfl, rfl, rfl⟩ := h
    exact ⟨rfl, rfl, rfl, rfl, rfl, rfl⟩

/-- Whenever the machine type is recognized and the solvent step succeeds,
the dict returned by the call is exactly the dict after the solvent step,
on every control path. -/
theorem calculate_parts_fitting_state (d : InputData) (cw cd ch clw cld clh : ℚ)
    (d' : InputData)
    (hmc : chamberDims (pyStrip (d.machine_type.getD "")) = some (cw, cd, ch))
    (hpa : pureAdjust (pyStrip (d.solvent.getD "")) d = .ok (clw, cld, clh, d')) :
    (calculate_parts_fitting d).2 = d' := by
  cases hps : parseSix d' with
  | none => simp only [calculate_parts_fitting, hmc, hpa, hps]
  | some t =>
    obtain ⟨pw, pdq, ph, sw, sdq, sh⟩ := t
    cases hc1 : calculate_total_parts (cw - clw) (ch - clh) pw pdq ph sw sdq sh
        (cd - cld) with
    | error e => simp only [calculate_parts_fitting, hmc, hpa, hps, hc1]
    | ok t1 =>
      obtain ⟨t, a, b, c⟩ := t1
      cases hc2 : calculate_total_parts (cw - clw) (ch - clh) pw pdq ph sw sdq sh
          (cd - cld + 300) with
      | error e => simp only [calculate_parts_fitting, hmc, hpa, hps, hc1, hc2]
      | ok t2 =>
        obtain ⟨t', a', b', c'⟩ := t2
        simp only [calculate_parts_fitting, hmc, hpa, hps, hc1, hc2]

/-- Evaluation of the calculator at the scenario-1 input: 5 × 4 × 2 parts,
40 total, extended total 90, input dict left unchanged. -/
theorem scenario1_eval :
    calculate_parts_fitting scenario1 = (.ok scenario1Result, scenario1) := by
  have hmc : chamberDims (pyStrip (scenario1.machine_type.getD "")) =
      some (400, 300, 400) := rfl
  have hpa : pureAdjust (pyStrip (scenario1.solvent.getD "")) scenario1 =
      .ok (50, 50, 50, scenario1) := rfl
  have hps : parseSix scenario1 = some (50, 50, 100, 10, 10, 30) := rfl
  rw [calculate_parts_fitting_eq scenario1 400 300 400 50 50 50 scenario1
    50 50 100 10 10 30 hmc hpa hps (by norm_num) (by norm_num) (by norm_num)]
  norm_num [scenario1Result]

/-- Claim C1: for machine_type "SF50", empty solvent, part (50,50,100) and
spacing (10,10,30), the calculator returns parts_along_width 5,
parts_along_depth 4, parts_along_height 2 and total_parts 40 (effective
chamber (350,250,350), pitch (60,60,130); it also leaves the input dict
unchanged and reports an extended total of 90). -/
theorem c1_scenario1 :
    calculate_parts_fitting scenario1 =
      (.ok { total_parts_original := 40, total_parts_extended := 90,
             parts_along_height_original := 2, parts_along_height_extended := 2,
             parts_along_width_original := 5, parts_along_depth_original := 4 },
       scenario1) := by
  rw [scenario1_eval]
  rfl

/-- Claim C5: for every input whose stripped machine_type is neither "SF50"
nor "SF100", the calculator returns the InvalidMachineType error, produces
no result object, and leaves the input dict untouched. -/
theorem c5_invalid_machine_type (d : InputData)
    (h50 : pyStrip (d.machine_type.getD "") ≠ "SF50")
    (h100 : pyStrip (d.machine_type.getD "") ≠ "SF100") :
    (calculate_parts_fitting d).1 = .error .invalidMachineType ∧
      (calculate_parts_fitting d).2 = d := by
  have hmc : chamberDims (pyStrip (d.machine_type.getD "")) = none := by
    simp [chamberDims, h50, h100]
  constructor <;> simp only [calculate_parts_fitting, hmc]

/-- Witness for C5 at machine_type "SF75". -/
theorem c5_witness :
    (calculate_parts_fitting invalidMachineInput).1 = .error .invalidMachineType ∧
      (calculate_parts_fitting invalidMachineInput).2 = invalidMachineInput :=
  c5_invalid_machine_type invalidMachineInput (by decide) (by decide)

/-- Claim C7: whenever the calculator returns a result, total_parts is
exactly the product of the three per-axis counts. -/
theorem c7_total_is_product (d : InputData) (r : PackingResult)
    (h : (calculate_parts_fitting d).1 = .ok r) :
    r.total_parts_original =
      r.parts_along_width_original * r.parts_along_depth_original *
        r.parts_along_height_original := by
  obtain ⟨cw, cd, ch, clw, cld, clh, d', pw, pdq, ph, sw, sdq, sh,
    hmc, hpa, hps, h1, h2, h3, hst, hr⟩ := calculate_parts_fitting_ok d r h
  subst hr
  rfl

/-- Witness for C7 at the scenario-1 input. -/
theorem c7_witness :
    scenario1Result.total_parts_original =
      scenario1Result.parts_along_width_original *
        scenario1Result.parts_along_depth_original *
        scenario1Result.parts_along_height_original :=
  c7_total_is_product scenario1 scenario1Result (by rw [scenario1_eval])

/-- Claim C6: whenever the calculator returns a result,
parts_along_height equals min(5, floor(effective chamber height /
effective pitch height)) and in particular is at most 5, however small the
part height is. -/
theorem c6_height_cap (d : InputData) (r : PackingResult)
    (cw cd ch clw cld clh : ℚ) (d' : InputData) (pw pdq ph sw sdq sh : ℚ)
    (hmc : chamberDims (pyStrip (d.machine_type.getD "")) = some (cw, cd, ch))
    (hpa : pureAdjust (pyStrip (d.solvent.getD "")) d = .ok (clw, cld, clh, d'))
    (hps : parseSix d' = some (pw, pdq, ph, sw, sdq, sh))
    (h : (calculate_parts_fitting d).1 = .ok r) :
    r.parts_along_height_original = min 5 ⌊(ch - clh) / (ph + sh)⌋ ∧
      r.parts_along_height_original ≤ 5 := by
  obtain ⟨cw', cd', ch', clw', cld', clh', dx, pw', pdq', ph', sw', sdq', sh',
    hmc', hpa', hps', h1, h2, h3, hst, hr⟩ := calculate_parts_fitting_ok d r h
  rw [hmc] at hmc'
  injection hmc' with hmc'
  simp only [Prod.mk.injEq] at hmc'
  obtain ⟨rfl, rfl, rfl⟩ := hmc'
  rw [hpa] at hpa'
  injection hpa' with hpa'
  simp only [Prod.mk.injEq] at hpa'
  obtain ⟨rfl, rfl, rfl, rfl⟩ := hpa'
  rw [hps] at hps'
  injection hps' with hps'
  simp only [Prod.mk.injEq] at hps'
  obtain ⟨rfl, rfl, rfl, rfl, rfl, rfl⟩ := hps'
  subst hr
  exact ⟨rfl, min_le_left _ _⟩

/-- Witness for C6 at the scenario-1 input. -/
theorem c6_witness :
    scenario1Result.parts_along_height_original =
      min 5 ⌊((400 : ℚ) - 50) / (100 + 30)⌋ ∧
      scenario1Result.parts_along_height_original ≤ 5 :=
  c6_height_cap scenario1 scenario1Result 400 300 400 50 50 50 scenario1
    50 50 100 10 10 30 rfl rfl rfl (by rw [scenario1_eval])

/-- Claim C9: whenever the calculator returns a result, its extended fields
(total_parts_extended, parts_along_height_extended) are exactly the fields
of the run that repeats steps 3–7 with the chamber depth increased by
300mm and all other inputs unchanged. -/
theorem c9_extended_is_depth_bonus_run (d : InputData) (r : PackingResult)
    (h : (calculate_parts_fitting d).1 = .ok r) :
    ∃ r' : SpecRunResult,
      (spec_repeat_with_depth_bonus d 300).1 = .ok r' ∧
      r.total_parts_extended = r'.total_parts ∧
      r.parts_along_height_extended = r'.parts_along_height := by
  obtain ⟨cw, cd, ch, clw, cld, clh, d', pw, pdq, ph, sw, sdq, sh,
    hmc, hpa, hps, h1, h2, h3, hst, hr⟩ := calculate_parts_fitting_ok d r h
  subst hr
  have hdep : cd + 300 - cld = cd - cld + 300 := by ring
  refine ⟨{ total_parts := ⌊(cw - clw) / (pw + sw)⌋ *
              ⌊(cd - cld + 300) / (pdq + sdq)⌋ * min 5 ⌊(ch - clh) / (ph + sh)⌋,
            parts_along_width := ⌊(cw - clw) / (pw + sw)⌋,
            parts_along_depth := ⌊(cd - cld + 300) / (pdq + sdq)⌋,
            parts_along_height := min 5 ⌊(ch - clh) / (ph + sh)⌋ }, ?_, rfl, rfl⟩
  simp only [spec_repeat_with_depth_bonus, hmc, hpa, hps, hdep,
    calculate_total_parts_eq _ _ _ _ _ _ _ _ _ h1 h2 h3]

/-- Witness for C9 at the scenario-1 input. -/
theorem c9_witness :
    ∃ r' : SpecRunResult,
      (spec_repeat_with_depth_bonus scenario1 300).1 = .ok r' ∧
      scenario1Result.total_parts_extended = r'.total_parts ∧
      scenario1Result.parts_along_height_extended = r'.parts_along_height :=
  c9_extended_is_depth_bonus_run scenario1 scenario1Result (by rw [scenario1_eval])

/-- Evaluation of the calculator at the PURE-solvent input: it returns the
16-part result and hands back a dict whose spacing_width and spacing_depth
have been increased by 10. -/
theorem pureInput_eval :
    calculate_parts_fitting pureInput = (.ok pureResult, pureMutated) := by
  have hs : pyStrip (pureInput.solvent.getD "") = "PURE" := rfl
  have hpa : pureAdjust (pyStrip (pureInput.solvent.getD "")) pureInput =
      .ok (100, 100, 100, pureMutated) := by
    rw [hs, pureAdjust_pure pureInput 10 10 rfl rfl]
    norm_num [pureInput, pureMutated]
  have hmc : chamberDims (pyStrip (pureInput.machine_type.getD "")) =
      some (400, 300, 400) := rfl
  have hps : parseSix pureMutated = some (50, 50, 100, 20, 20, 30) := rfl
  rw [calculate_parts_fitting_eq pureInput 400 300 400 100 100 100 pureMutated
    50 50 100 20 20 30 hmc hpa hps (by norm_num) (by norm_num) (by norm_num)]
  norm_num [pureResult]

/-- Evaluation of the calculator at the once-mutated dict: it returns the
12-part result and mutates the spacing fields again. -/
theorem pureMutated_eval :
    calculate_parts_fitting pureMutated = (.ok pureResult2, pureMutated2) := by
  have hs : pyStrip (pureMutated.solvent.getD "") = "PURE" := rfl
  have hpa : pureAdjust (pyStrip (pureMutated.solvent.getD "")) pureMutated =
      .ok (100, 100, 100, pureMutated2) := by
    rw [hs, pureAdjust_pure pureMutated 20 20 rfl rfl]
    norm_num [pureMutated, pureMutated2]
  have hmc : chamberDims (pyStrip (pureMutated.machine_type.getD "")) =
      some (400, 300, 400) := rfl
  have hps : parseSix pureMutated2 = some (50, 50, 100, 30, 30, 30) := rfl
  rw [calculate_parts_fitting_eq pureMutated 400 300 400 100 100 100 pureMutated2
    50 50 100 30 30 30 hmc hpa hps (by norm_num) (by norm_num) (by norm_num)]
  norm_num [pureResult2]

/-- Counterexample to claim C2: on the PURE-solvent input the call mutates
the caller's dict, and a second call on the same dict returns a different
result than the first. -/
theorem c2_counterexample :
    (calculate_parts_fitting pureInput).2 ≠ pureInput ∧
      (calculate_parts_fitting ((calculate_parts_fitting pureInput).2)).1 ≠
        (calculate_parts_fitting pureInput).1 := by
  have h2 : (calculate_parts_fitting pureInput).2 = pureMutated := by
    rw [pureInput_eval]
  have h1 : (calculate_parts_fitting pureInput).1 = .ok pureResult := by
    rw [pureInput_eval]
  constructor
  · rw [h2]
    norm_num [pureMutated, pureInput]
  · rw [h2, h1]
    have h3 : (calculate_parts_fitting pureMutated).1 = .ok pureResult2 := by
      rw [pureMutated_eval]
    rw [h3]
    norm_num [pureResult, pureResult2]

/-- Claim C2 (amended): the calculator is deterministic, and for every input
whose stripped solvent is not "PURE" it is side-effect free: the
caller-supplied dict is unchanged and an immediate second call on it returns
the identical outcome.  (For solvent "PURE" the call mutates the caller's
spacing fields; see the counterexample and claim C10.) -/
theorem c2_pure_function_unless_pure_solvent (d : InputData)
    (h : pyStrip (d.solvent.getD "") ≠ "PURE") :
    (calculate_parts_fitting d).2 = d ∧
      calculate_parts_fitting ((calculate_parts_fitting d).2) =
        calculate_parts_fitting d := by
  have hframe : (calculate_parts_fitting d).2 = d := by
    cases hmc : chamberDims (pyStrip (d.machine_type.getD "")) with
    | none => simp only [calculate_parts_fitting, hmc]
    | some c =>
      obtain ⟨cw, cd, ch⟩ := c
      exact calculate_parts_fitting_state d cw cd ch 50 50 50 d hmc
        (pureAdjust_not_pure _ d h)
  exact ⟨hframe, by rw [hframe]⟩

/-- Witness for the amended C2 at the scenario-1 input. -/
theorem c2_witness :
    (calculate_parts_fitting scenario1).2 = scenario1 ∧
      calculate_parts_fitting ((calculate_parts_fitting scenario1).2) =
        calculate_parts_fitting scenario1 :=
  c2_pure_function_unless_pure_solvent scenario1 (by decide)

/-- Claim C3 (amended): for every input with a recognized machine type,
numeric fields, and a zero pitch on some axis, the calculator raises an
unhandled ZeroDivisionError — it does not return a validation error (the
source has no pitch check at all). -/
theorem c3_zero_pitch_crashes (d : InputData) (cw cd ch clw cld clh : ℚ)
    (d' : InputData) (pw pdq ph sw sdq sh : ℚ)
    (hmc : chamberDims (pyStrip (d.machine_type.getD "")) = some (cw, cd, ch))
    (hpa : pureAdjust (pyStrip (d.solvent.getD "")) d = .ok (clw, cld, clh, d'))
    (hps : parseSix d' = some (pw, pdq, ph, sw, sdq, sh))
    (hz : pw + sw = 0 ∨ pdq + sdq = 0 ∨ ph + sh = 0) :
    (calculate_parts_fitting d).1 = .exn .zeroDivisionError := by
  simp only [calculate_parts_fitting, hmc, hpa, hps,
    calculate_total_parts_zero _ _ _ _ _ _ _ _ _ hz]

/-- Counterexample to claim C3 as stated: with part_width 0 and
spacing_width 0 (zero pitch) the call ends in a ZeroDivisionError, not in
either of the two validation-error returns the function has. -/
theorem c3_counterexample :
    (calculate_parts_fitting zeroPitchInput).1 = .exn .zeroDivisionError ∧
      (calculate_parts_fitting zeroPitchInput).1 ≠ .error .invalidMachineType ∧
      (calculate_parts_fitting zeroPitchInput).1 ≠ .error .nonNumericInput := by
  have hmc : chamberDims (pyStrip (zeroPitchInput.machine_type.getD "")) =
      some (400, 300, 400) := rfl
  have hpa : pureAdjust (pyStrip (zeroPitchInput.solvent.getD "")) zeroPitchInput =
      .ok (50, 50, 50, zeroPitchInput) := rfl
  have hps : parseSix zeroPitchInput = some (0, 50, 100, 0, 10, 30) := rfl
  have h : (calculate_parts_fitting zeroPitchInput).1 = .exn .zeroDivisionError := by
    simp only [calculate_parts_fitting, hmc, hpa, hps,
      calculate_total_parts_zero (400 - 50) (400 - 50) 0 50 100 0 10 30 (300 - 50)
        (Or.inl (by norm_num))]
  refine ⟨h, ?_, ?_⟩ <;> rw [h] <;> simp

/-- Witness for the amended C3: a zero height pitch also crashes. -/
theorem c3_witness :
    (calculate_parts_fitting zeroHeightPitchInput).1 = .exn .zeroDivisionError :=
  c3_zero_pitch_crashes zeroHeightPitchInput 400 300 400 50 50 50
    zeroHeightPitchInput 50 50 0 10 10 0 rfl rfl rfl
    (Or.inr (Or.inr (by norm_num)))

/-- Claim C4 (code bug): with the `spacing_width` key missing from the dict
the calculator silently treats it as 0 and returns a 56-part result instead
of the validation error the (dead) non-null check of lines 67–68 was meant
to produce. -/
theorem c4_missing_field_returns_result :
    calculate_parts_fitting missingFieldInput =
      (.ok { total_parts_original := 56, total_parts_extended := 126,
             parts_along_height_original := 2, parts_along_height_extended := 2,
             parts_along_width_original := 7, parts_along_depth_original := 4 },
       missingFieldInput) := by
  have hmc : chamberDims (pyStrip (missingFieldInput.machine_type.getD "")) =
      some (400, 300, 400) := rfl
  have hpa : pureAdjust (pyStrip (missingFieldInput.solvent.getD ""))
      missingFieldInput = .ok (50, 50, 50, missingFieldInput) := rfl
  have hps : parseSix missingFieldInput = some (50, 50, 100, 0, 10, 30) := rfl
  rw [calculate_parts_fitting_eq missingFieldInput 400 300 400 50 50 50
    missingFieldInput 50 50 100 0 10 30 hmc hpa hps
    (by norm_num) (by norm_num) (by norm_num)]
  norm_num

/-- Claim C10: with solvent "PURE" (and a recognized machine type) the call
writes spacing_width + 10 and spacing_depth + 10 back into the caller's
dict, leaves spacing_height alone, and the width/depth counts of any
returned result use pitch part size + caller spacing + 10 against the
100mm-clearance chamber. -/
theorem c10_pure_mutates_spacing (d : InputData) (q1 q2 cw cd ch : ℚ)
    (hmc : chamberDims (pyStrip (d.machine_type.getD "")) = some (cw, cd, ch))
    (hs : pyStrip (d.solvent.getD "") = "PURE")
    (hw : d.spacing_width = some (.num q1))
    (hd : d.spacing_depth = some (.num q2)) :
    (calculate_parts_fitting d).2 =
      { d with spacing_width := some (.num (q1 + 10)),
               spacing_depth := some (.num (q2 + 10)) } ∧
    (∀ (r : PackingResult) (pw pdq : ℚ),
      pyFloat (d.part_width.getD (.num 0)) = some pw →
      pyFloat (d.part_depth.getD (.num 0)) = some pdq →
      (calculate_parts_fitting d).1 = .ok r →
      r.parts_along_width_original = ⌊(cw - 100) / (pw + (q1 + 10))⌋ ∧
        r.parts_along_depth_original = ⌊(cd - 100) / (pdq + (q2 + 10))⌋) := by
  have hpa : pureAdjust (pyStrip (d.solvent.getD "")) d =
      .ok (100, 100, 100,
        { d with spacing_width := some (.num (q1 + 10)),
                 spacing_depth := some (.num (q2 + 10)) }) := by
    rw [hs, pureAdjust_pure d q1 q2 hw hd]
    norm_num
  constructor
  · exact calculate_parts_fitting_state d cw cd ch 100 100 100 _ hmc hpa
  · intro r pw pdq hpw hpd hr
    obtain ⟨cw', cd', ch', clw', cld', clh', dx, pw', pdq', ph', sw', sdq', sh',
      hmc', hpa', hps', h1, h2, h3, hst, hrr⟩ := calculate_parts_fitting_ok d r hr
    rw [hmc] at hmc'
    injection hmc' with hmc'
    simp only [Prod.mk.injEq] at hmc'
    obtain ⟨rfl, rfl, rfl⟩ := hmc'
    rw [hpa] at hpa'
    injection hpa' with hpa'
    simp only [Prod.mk.injEq] at hpa'
    obtain ⟨rfl, rfl, rfl, rfl⟩ := hpa'
    obtain ⟨epw, epd, eph, esw, esd, esh⟩ := parseSix_some _ _ _ _ _ _ _ hps'
    have epw' : pyFloat (d.part_width.getD (.num 0)) = some pw' := epw
    have epd' : pyFloat (d.part_depth.getD (.num 0)) = some pdq' := epd
    have esw' : (some (q1 + 10) : Option ℚ) = some sw' := esw
    have esd' : (some (q2 + 10) : Option ℚ) = some sdq' := esd
    rw [hpw] at epw'
    injection epw' with epw'
    rw [hpd] at epd'
    injection epd' with epd'
    injection esw' with esw'
    injection esd' with esd'
    subst epw'
    subst epd'
    subst esw'
    subst esd'
    subst hrr
    exact ⟨rfl, rfl⟩

/-- `setSpacing` never touches the machine type. -/
theorem setSpacing_machine_type (a : Axis) (d : InputData) (v : Option PyVal) :
    (setSpacing a d v).machine_type = d.machine_type := by
  cases a <;> rfl

/-- `setSpacing` never touches the solvent. -/
theorem setSpacing_solvent (a : Axis) (d : InputData) (v : Option PyVal) :
    (setSpacing a d v).solvent = d.solvent := by
  cases a <;> rfl

/-- Characterization of the per-axis count of a run whose spacing on one
axis has been set to the number `s`: the count is the floor of an effective
dimension (depending only on the axis, the machine type and the solvent)
divided by the pitch `part size + s + PURE bonus`, min-capped at 5 on the
height axis. -/
theorem axis_count_eval (a : Axis) (d : InputData) (s : ℚ) (r : PackingResult)
    (h : (calculate_parts_fitting (setSpacing a d (some (.num s)))).1 = .ok r) :
    ∃ (cw cd ch p e b : ℚ),
      chamberDims (pyStrip (d.machine_type.getD "")) = some (cw, cd, ch) ∧
      cw = 400 ∧ (cd = 300 ∨ cd = 600) ∧ ch = 400 ∧
      pyFloat ((partSizeField a d).getD (.num 0)) = some p ∧
      e = axisPick a cw cd ch -
          (if pyStrip (d.solvent.getD "") = "PURE" then 100 else 50) ∧
      b = (if pyStrip (d.solvent.getD "") = "PURE" ∧ a ≠ Axis.height
           then 10 else 0) ∧
      p + (s + b) ≠ 0 ∧
      alongOriginal a r =
        (if a = Axis.height then min 5 ⌊e / (p + (s + b))⌋
         else ⌊e / (p + (s + b))⌋) := by
  obtain ⟨cw, cd, ch, clw, cld, clh, dx, pw, pdq, ph, sw, sdq, sh,
    hmc, hpa, hps, h1, h2, h3, hst, hr⟩ := calculate_parts_fitting_ok _ r h
  rw [setSpacing_machine_type] at hmc
  rw [setSpacing_solvent] at hpa
  obtain ⟨hcw, hcd, hch⟩ := chamberDims_some _ _ _ _ hmc
  subst hr
  rcases pureAdjust_ok _ _ _ _ _ _ hpa with
    ⟨hnp, rfl, rfl, rfl, rfl⟩ | ⟨hpure, rfl, rfl, rfl, q1, q2, hq1, hq2, rfl⟩
  · obtain ⟨epw, epd, eph, esw, esd, esh⟩ := parseSix_some _ _ _ _ _ _ _ hps
    cases a with
    | width =>
      have hsw : (some s : Option ℚ) = some sw := esw
      injection hsw with hsw
      subst hsw
      exact ⟨cw, cd, ch, pw, cw - 50, 0, hmc, hcw, hcd, hch, epw,
        by simp [axisPick, hnp], by simp [hnp], by simpa using h1,
        by simp [alongOriginal]⟩
    | depth =>
      have hsd : (some s : Option ℚ) = some sdq := esd
      injection hsd with hsd
      subst hsd
      exact ⟨cw, cd, ch, pdq, cd - 50, 0, hmc, hcw, hcd, hch, epd,
        by simp [axisPick, hnp], by simp [hnp], by simpa using h2,
        by simp [alongOriginal]⟩
    | height =>
      have hsh : (some s : Option ℚ) = some sh := esh
      injection hsh with hsh
      subst hsh
      exact ⟨cw, cd, ch, ph, ch - 50, 0, hmc, hcw, hcd, hch, eph,
        by simp [axisPick, hnp], by simp [hnp], by simpa using h3,
        by simp [alongOriginal]⟩
  · obtain ⟨epw, epd, eph, esw, esd, esh⟩ := parseSix_some _ _ _ _ _ _ _ hps
    cases a with
    | width =>
      have hq1' : (some (PyVal.num s) : Option PyVal) = some (.num q1) := hq1
      injection hq1' with hq1'
      injection hq1' with hq1'
      subst hq1'
      have hsw : (some (s + 10) : Option ℚ) = some sw := esw
      injection hsw with hsw
      subst hsw
      exact ⟨cw, cd, ch, pw, cw - 100, 10, hmc, hcw, hcd, hch, epw,
        by simp [axisPick, hpure], by simp [hpure], by simpa using h1,
        by simp [alongOriginal]⟩
    | depth =>
      have hq2' : (some (PyVal.num s) : Option PyVal) = some (.num q2) := hq2
      injection hq2' with hq2'
      injection hq2' with hq2'
      subst hq2'
      have hsd : (some (s + 10) : Option ℚ) = some sdq := esd
      injection hsd with hsd
      subst hsd
      exact ⟨cw, cd, ch, pdq, cd - 100, 10, hmc, hcw, hcd, hch, epd,
        by simp [axisPick, hpure], by simp [hpure], by simpa using h2,
        by simp [alongOriginal]⟩
    | height =>
      have hsh : (some s : Option ℚ) = some sh := esh
      injection hsh with hsh
      subst hsh
      exact ⟨cw, cd, ch, ph, ch - 100, 0, hmc, hcw, hcd, hch, eph,
        by simp [axisPick, hpure], by simp [hpure], by simpa using h3,
        by simp [alongOriginal]⟩

/-- Claim C8: for two valid inputs that differ only in the (non-negative,
numeric) spacing entry of one axis, the run with the larger spacing never
reports a larger parts_along count on that axis.  Validity follows the
spec's data model: the part size on the axis is a non-negative number. -/
theorem c8_spacing_monotone (a : Axis) (d : InputData) (s1 s2 p : ℚ)
    (r1 r2 : PackingResult)
    (hp : pyFloat ((partSizeField a d).getD (.num 0)) = some p)
    (hp0 : 0 ≤ p) (hs1 : 0 ≤ s1) (hs12 : s1 ≤ s2)
    (h1 : (calculate_parts_fitting (setSpacing a d (some (.num s1)))).1 = .ok r1)
    (h2 : (calculate_parts_fitting (setSpacing a d (some (.num s2)))).1 = .ok r2) :
    alongOriginal a r2 ≤ alongOriginal a r1 := by
  obtain ⟨cw1, cd1, ch1, p1, e1, b1, hmc1, hcw1, hcd1, hch1, hp1, he1, hb1, hz1, hc1⟩ :=
    axis_count_eval a d s1 r1 h1
  obtain ⟨cw2, cd2, ch2, p2, e2, b2, hmc2, hcw2, hcd2, hch2, hp2, he2, hb2, hz2, hc2⟩ :=
    axis_count_eval a d s2 r2 h2
  rw [hmc1] at hmc2
  injection hmc2 with hmc2
  simp only [Prod.mk.injEq] at hmc2
  obtain ⟨rfl, rfl, rfl⟩ := hmc2
  rw [hp] at hp1 hp2
  injection hp1 with hp1
  injection hp2 with hp2
  subst hp1
  subst hp2
  have hee : e2 = e1 := he2.trans he1.symm
  have hbb : b2 = b1 := hb2.trans hb1.symm
  subst hee
  subst hbb
  have hb0 : 0 ≤ b2 := by
    rw [hb1]
    split <;> norm_num
  have he0 : 0 ≤ e2 := by
    rw [he1]
    subst hcw1
    subst hch1
    rcases hcd1 with rfl | rfl <;> cases a <;> split <;> norm_num [axisPick]
  have hpos1 : 0 < p + (s1 + b2) :=
    lt_of_le_of_ne (add_nonneg hp0 (add_nonneg hs1 hb0)) (Ne.symm hz1)
  have hple : p + (s1 + b2) ≤ p + (s2 + b2) := by linarith
  have hfl : ⌊e2 / (p + (s2 + b2))⌋ ≤ ⌊e2 / (p + (s1 + b2))⌋ :=
    Int.floor_le_floor (div_le_div_of_nonneg_left he0 hpos1 hple)
  rw [hc1, hc2]
  split_ifs with ha
  · exact min_le_min (le_refl 5) hfl
  · exact hfl

/-- Evaluation of the calculator at the scenario-1 input with spacing_width
raised to 60: only 3 parts fit along the width. -/
theorem scenario1Wide_eval :
    calculate_parts_fitting scenario1Wide = (.ok scenario1WideResult, scenario1Wide) := by
  have hmc : chamberDims (pyStrip (scenario1Wide.machine_type.getD "")) =
      some (400, 300, 400) := rfl
  have hpa : pureAdjust (pyStrip (scenario1Wide.solvent.getD "")) scenario1Wide =
      .ok (50, 50, 50, scenario1Wide) := rfl
  have hps : parseSix scenario1Wide = some (50, 50, 100, 60, 10, 30) := rfl
  rw [calculate_parts_fitting_eq scenario1Wide 400 300 400 50 50 50 scenario1Wide
    50 50 100 60 10 30 hmc hpa hps (by norm_num) (by norm_num) (by norm_num)]
  norm_num [scenario1WideResult]

/-- Witness for C8: raising spacing_width from 10 to 60 on the scenario-1
input drops the width count from 5 to 3. -/
theorem c8_witness :
    alongOriginal Axis.width scenario1WideResult ≤
      alongOriginal Axis.width scenario1Result :=
  c8_spacing_monotone Axis.width scenario1 10 60 50 scenario1Result
    scenario1WideResult rfl (by norm_num) (by norm_num) (by norm_num)
    (by show (calculate_parts_fitting scenario1).1 = .ok scenario1Result
        rw [scenario1_eval])
    (by show (calculate_parts_fitting scenario1Wide).1 = .ok scenario1WideResult
        rw [scenario1Wide_eval])

/-- Witness for C10 at the PURE-solvent input. -/
theorem c10_witness :
    (calculate_parts_fitting pureInput).2 =
      { pureInput with spacing_width := some (.num (10 + 10)),
                       spacing_depth := some (.num (10 + 10)) } ∧
    (pureResult.parts_along_width_original =
        ⌊((400 : ℚ) - 100) / (50 + (10 + 10))⌋ ∧
      pureResult.parts_along_depth_original =
        ⌊((300 : ℚ) - 100) / (50 + (10 + 10))⌋) := by
  obtain ⟨ha, hb⟩ :=
    c10_pure_mutates_spacing pureInput 10 10 400 300 400 rfl rfl rfl rfl
  exact ⟨ha, hb pureResult 50 50 rfl rfl (by rw [pureInput_eval])⟩

end ChamberApp
